import Mathlib

/-!
Shallow embedding of the githubbeard chat-bot plugin
(`src/python/githubbeard/__init__.py` and `src/python/githubbeard/decorators.py`).

Each command handler is modelled as a pure function from the beard's state
(the two database tables created in `GithubBeard.__init__`) and the inbound
message to the new state, the ordered trace of external effects the handler
performs (chat messages, chat actions, GitHub-client calls, listener waits)
and an optional Python-level exception.

External collaborators are modelled explicitly:
the skybeard `BeardDBTable` / dataset key-value table (`find_one`, `insert`),
`skybeard.utils.get_args` (whitespace tokenisation of the message text after
the command token), the `onerror` dispatch-boundary wrapper, and the PyGithub
client (an environment of response functions).  The repository module
`format_` is not under `src/`; its two formatters are modelled from the spec
where noted.
-/

set_option autoImplicit false

namespace Githubbeard

/-- A row of the `default_repo` table: `dict(chat_id=..., repo=...)`
(`__init__.py` line 116). -/
structure DefaultRepoEntry where
  chat_id : Int
  repo : String
deriving Repr, DecidableEq

/-- A backing table is modelled as the ordered list of its rows. -/
abbrev Table := List DefaultRepoEntry

/-- Model of the external BeardDBTable / dataset `table.find_one(chat_id=...)`:
the first row whose `chat_id` column matches, or `None`. -/
def find_one (t : Table) (cid : Int) : Option DefaultRepoEntry :=
  t.find? fun e => e.chat_id == cid

/-- Model of the external BeardDBTable / dataset `table.insert(row)`: appends
the row at the end (dataset's `insert` never replaces an existing row; the
library's separate `upsert` would) and returns the inserted row when the
backing store confirms the write.  `confirm = false` models an unconfirmed
write, the `entry?` failure the spec allows for the external table interface. -/
def Table.insert (t : Table) (e : DefaultRepoEntry) (confirm : Bool) :
    Table × Option DefaultRepoEntry :=
  (t ++ [e], if confirm then some e else none)

/-- Helper for `pySplit`: accumulates the current word (reversed) while
scanning the character list. -/
def pySplitAux : List Char → List Char → List String
  | [], cur => if cur.isEmpty then [] else [String.mk cur.reverse]
  | c :: cs, cur =>
    if c = ' ' then
      if cur.isEmpty then pySplitAux cs []
      else String.mk cur.reverse :: pySplitAux cs []
    else pySplitAux cs (c :: cur)

/-- Python `str.split()` with no separator argument: splits on runs of
spaces, discarding empty pieces. -/
def pySplit (s : String) : List String :=
  pySplitAux s.toList []

/-- Model of the external `skybeard.utils.get_args(msg)`:
the whitespace-separated tokens of the message text after the leading
command token (Python `msg['text'].split()[1:]`). -/
def get_args (msg_text : String) : List String :=
  (pySplit msg_text).drop 1

/-- Model of the external `skybeard.utils.get_args(msg, return_string=True)`:
the same tokens joined back into a single argument string. -/
def get_args_string (msg_text : String) : String :=
  String.intercalate " " (get_args msg_text)

/-- A pull-request object as returned by the GitHub client.
Only its display text matters to this plugin. -/
structure PullRequest where
  text : String
deriving Repr, DecidableEq

/-- A repository object as returned by the GitHub client: `repo.name`,
`repo.url`, its `str(...)` rendering, and the result of `repo.get_pulls()`. -/
structure GhRepo where
  name : String
  url : String
  str : String
  get_pulls : List PullRequest
deriving Repr, DecidableEq

/-- A user object as returned by the GitHub client: `user.name` may be
`None`, `user.login` is always present, `user.get_repos()` lists repos. -/
structure GithubUser where
  name : Option String
  login : String
  get_repos : List GhRepo
deriving Repr, DecidableEq

/-- Environment modelling the external PyGithub client (`self.github`):
responses for `get_repo`, `get_user(login)` (`none` models
`UnknownObjectException`), `get_user()` (the authenticated user) and
`search_repositories`. -/
structure GithubEnv where
  get_repo : String → GhRepo
  get_user : String → Option GithubUser
  auth_user : GithubUser
  search_repositories : String → List GhRepo

/-- Modelled from the spec: `format_.make_pull_msg_text_informal` lives in the
repository module `format_`, which is not under `src/`; spec section 4.4
describes it as a pure, side-effect-free transform from a pull-request object
to display text.  Modelled as reading the pull request's display text. -/
def make_pull_msg_text_informal (pr : PullRequest) : String :=
  pr.text

/-- Modelled from the spec: `format_.make_repo_msg_text` is likewise in the
missing `format_` module; spec section 4.4 describes `repoMessage` as a pure
short-summary transform of a repo object.  Modelled as reading the repo's
`str` rendering. -/
def make_repo_msg_text (r : GhRepo) : String :=
  r.str

/-- An external effect performed by a handler, in order. -/
inductive Effect where
  | sendMessage (text : String)
  | sendMessageHTML (text : String)
  | sendChatAction (action : String)
  | listenerWait
  | getRepoCall (full_name : String)
  | getUserCall (login : Option String)
  | searchCall (query : String)
  | paginate (items : List GhRepo)
deriving Repr, DecidableEq

/-- A Python-level exception escaping a handler body. -/
inductive PyError where
  | raised (text : String)
  | noneSubscript
deriving Repr, DecidableEq

/-- The beard's mutable state: the two tables created in
`GithubBeard.__init__` (`__init__.py` lines 89-90). -/
structure BeardState where
  default_repo_table : Table
  search_repos_results : Table
deriving Repr, DecidableEq

/-- Result of running one handler body: new state, ordered effect trace,
and the exception that escaped the body, if any. -/
structure HandlerResult where
  state : BeardState
  effects : List Effect
  err : Option PyError
deriving Repr, DecidableEq

/-- The wrapper built by `_get_args_as_str_or_ask_decorator`
(`decorators.py` lines 36-49): extract the trailing argument string; if it is
falsy (empty), send the prompt and wait on the listener, using the next
message's `text` field as the argument.  Returns the effects performed before
the wrapped handler runs, and the argument string passed to the handler. -/
def get_args_as_str_or_ask (prompt : String) (msg_text : String)
    (next_message_text : String) : List Effect × String :=
  let args := get_args_string msg_text
  if args = "" then
    ([Effect.sendMessage prompt, Effect.listenerWait], next_message_text)
  else
    ([], args)

/-- Model of the external skybeard `onerror` dispatch-boundary wrapper with a
custom user-facing message (spec section 7): an exception escaping the body is
caught and converted into one chat message; messages already sent stay sent. -/
def onerror (fallback : String) (r : HandlerResult) : HandlerResult :=
  match r.err with
  | some _ =>
    { state := r.state, effects := r.effects ++ [Effect.sendMessage fallback]
      err := none }
  | none => r

/-- `search_repos` body (`__init__.py` lines 92-100), after argument
resolution: send a typing action, query the search, truncate with
`search_results[:30]`, hand the bounded list to `send_paginated_message`. -/
def search_repos (env : GithubEnv) (s : BeardState) (args : String) :
    HandlerResult :=
  let search_results := env.search_repositories args
  let search_results := search_results.take 30
  { state := s
    effects := [Effect.sendChatAction "typing", Effect.searchCall args,
                Effect.paginate search_results]
    err := none }

/-- `get_default_repo` (`__init__.py` lines 102-110): report the stored repo
for this chat, or "No repo set." when the table has no row for it. -/
def get_default_repo (s : BeardState) (cid : Int) : HandlerResult :=
  match find_one s.default_repo_table cid with
  | some entry =>
    { state := s
      effects := [Effect.sendMessage ("Default repo for this chat: " ++ entry.repo)]
      err := none }
  | none =>
    { state := s, effects := [Effect.sendMessage "No repo set."], err := none }

/-- `set_default_repo` body (`__init__.py` lines 112-121), after argument
resolution: `table.insert(dict(chat_id=..., repo=args))`; a truthy returned
entry is confirmed with "Repo set to: ...", a falsy one raises. -/
def set_default_repo (s : BeardState) (cid : Int) (args : String)
    (confirm : Bool) : HandlerResult :=
  let res := Table.insert s.default_repo_table { chat_id := cid, repo := args } confirm
  let s2 := { s with default_repo_table := res.1 }
  match res.2 with
  | some _ =>
    { state := s2, effects := [Effect.sendMessage ("Repo set to: " ++ args)]
      err := none }
  | none =>
    { state := s2, effects := []
      err := some (PyError.raised "Not sure how, but the entry failed to be got?") }

/-- `get_repo` body (`__init__.py` lines 127-133), after argument resolution:
fetch the repo by the full argument string and send its name and `str(...)`. -/
def get_repo (env : GithubEnv) (s : BeardState) (args : String) :
    HandlerResult :=
  let repo := env.get_repo args
  { state := s
    effects := [Effect.getRepoCall args,
                Effect.sendMessage ("Repo name: " ++ repo.name),
                Effect.sendMessage ("Repo str: " ++ repo.str)]
    err := none }

/-- `get_pending_pulls` (`__init__.py` lines 135-154): if the message carries
inline arguments, fetch `args[0]`; otherwise look up the chat's default-repo
row and fetch `entry['repo']` — subscripting the `None` returned for a
missing row raises a `TypeError` (modelled as `PyError.noneSubscript`).  Then
send one HTML-formatted message per pull request, in listing order; the loop
variable `pr` stays `None` exactly when the listing is empty (pull-request
objects are never `None`), in which case a single
"No pull requests found for ..." message is sent. -/
def get_pending_pulls (env : GithubEnv) (s : BeardState) (cid : Int)
    (msg_text : String) : HandlerResult :=
  let args := get_args msg_text
  let fetched : Except PyError String :=
    match args with
    | a0 :: _ => Except.ok a0
    | [] =>
      match find_one s.default_repo_table cid with
      | some entry => Except.ok entry.repo
      | none => Except.error PyError.noneSubscript
  match fetched with
  | Except.error e => { state := s, effects := [], err := some e }
  | Except.ok rname =>
    let repo := env.get_repo rname
    let prMsgs := repo.get_pulls.map fun pr =>
      Effect.sendMessageHTML (make_pull_msg_text_informal pr)
    let effs :=
      if repo.get_pulls.isEmpty then
        prMsgs ++ [Effect.sendMessage ("No pull requests found for " ++ repo.name ++ ".")]
      else
        prMsgs
    { state := s, effects := Effect.getRepoCall rname :: effs, err := none }

/-- Python `user.name or user.login` (`__init__.py` line 168): `None` and the
empty string are falsy. -/
def py_or (a : Option String) (b : String) : String :=
  match a with
  | some v => if v.isEmpty then b else v
  | none => b

/-- The repo-link lines built by the loop in `get_current_user_repos`
(`__init__.py` lines 171-173). -/
def repos_lines (rs : List GhRepo) : String :=
  rs.foldl (fun acc r => acc ++ "- <a href=\"" ++ r.url ++ "\">" ++ r.name ++ "</a>\n") ""

/-- The messages sent for a resolved user (`__init__.py` lines 168-174):
header, typing action, then one HTML message with all repo lines. -/
def user_repos_effects (u : GithubUser) : List Effect :=
  [Effect.sendMessage ("Github repos for " ++ py_or u.name u.login ++ ":"),
   Effect.sendChatAction "typing",
   Effect.sendMessageHTML (repos_lines u.get_repos)]

/-- `get_current_user_repos` (`__init__.py` lines 156-174): with an inline
first token, resolve that login (an `UnknownObjectException`, modelled as
`none`, sends "User not found." and returns); with no token the `IndexError`
on `args[0]` selects the authenticated user. -/
def get_current_user_repos (env : GithubEnv) (s : BeardState)
    (msg_text : String) : HandlerResult :=
  let args := get_args msg_text
  match args with
  | a0 :: _ =>
    match env.get_user a0 with
    | none =>
      { state := s
        effects := [Effect.getUserCall (some a0), Effect.sendMessage "User not found."]
        err := none }
    | some u =>
      { state := s, effects := Effect.getUserCall (some a0) :: user_repos_effects u
        err := none }
  | [] =>
    { state := s, effects := Effect.getUserCall none :: user_repos_effects env.auth_user
      err := none }

/-- Outbound chat traffic of an effect trace: messages and chat actions,
excluding GitHub-client calls and listener waits. -/
def sends (effs : List Effect) : List Effect :=
  effs.filter fun e =>
    match e with
    | Effect.sendMessage _ => true
    | Effect.sendMessageHTML _ => true
    | Effect.sendChatAction _ => true
    | _ => false

/-- The repo names passed to `github.get_repo` in an effect trace. -/
def repoCalls (effs : List Effect) : List String :=
  effs.filterMap fun e =>
    match e with
    | Effect.getRepoCall n => some n
    | _ => none

/-- The first sequence handed to the paginator in an effect trace. -/
def paginatedItems (effs : List Effect) : Option (List GhRepo) :=
  effs.findSome? fun e =>
    match e with
    | Effect.paginate items => some items
    | _ => none

/-- Everything about a handler result except the `search_repos_results`
table: used to state that handlers neither read nor write that table. -/
def visible (r : HandlerResult) : Table × List Effect × Option PyError :=
  (r.state.default_repo_table, r.effects, r.err)

/-- Fixture: pull requests for concrete witnesses. -/
def prA : PullRequest := { text := "PR A" }

def prB : PullRequest := { text := "PR B" }

/-- Fixture: a repo with no open pull requests. -/
def repo0 : GhRepo := { name := "r0", url := "u0", str := "repo zero", get_pulls := [] }

/-- Fixture: a repo with two open pull requests. -/
def repo2 : GhRepo := { name := "r2", url := "u2", str := "repo two", get_pulls := [prA, prB] }

/-- Fixture: a user. -/
def user0 : GithubUser := { name := none, login := "octo", get_repos := [repo0] }

/-- Fixture: a client where every repo is `repo0`, every user lookup misses,
and search yields 3 results. -/
def env0 : GithubEnv :=
  { get_repo := fun _ => repo0, get_user := fun _ => none, auth_user := user0,
    search_repositories := fun _ => List.replicate 3 repo0 }

/-- Fixture: a client where every repo is `repo2`, user lookups hit, and
search yields 45 results. -/
def env2 : GithubEnv :=
  { get_repo := fun _ => repo2, get_user := fun _ => some user0, auth_user := user0,
    search_repositories := fun _ => List.replicate 45 repo0 }

/-- Fixture: the initial beard state with both tables empty. -/
def s0 : BeardState := { default_repo_table := [], search_repos_results := [] }

lemma find_one_append_self (t : Table) (cid : Int) (r : String)
    (h : find_one t cid = none) :
    find_one (t ++ [{ chat_id := cid, repo := r }]) cid
      = some { chat_id := cid, repo := r } := by
  unfold find_one at h ⊢
  rw [List.find?_append, h]
  simp

lemma sends_map_html (l : List PullRequest) :
    sends (l.map fun pr => Effect.sendMessageHTML (make_pull_msg_text_informal pr))
      = l.map fun pr => Effect.sendMessageHTML (make_pull_msg_text_informal pr) := by
  induction l with
  | nil => rfl
  | cons p l ih =>
    simp only [List.map_cons, sends, List.filter_cons] at ih ⊢
    simp [ih]

lemma repoCalls_map_html (l : List PullRequest) :
    repoCalls (l.map fun pr => Effect.sendMessageHTML (make_pull_msg_text_informal pr))
      = [] := by
  induction l with
  | nil => rfl
  | cons p l ih =>
    simp only [List.map_cons, repoCalls, List.filterMap_cons] at ih ⊢
    simp [ih]

/-- Claim C1 (evaluating the code at the failing input): setting the default
repo twice for chat 1 — "a/b" then "c/d" — leaves two rows for that chat,
and `find_one`, hence `get_default_repo`, still reports the first value
"a/b": dataset `insert` appends rather than upserting, so re-setting does not
replace the prior value. -/
theorem set_default_repo_twice_keeps_two_entries :
    ((set_default_repo (set_default_repo s0 1 "a/b" true).state 1 "c/d" true).state.default_repo_table.filter
        (fun e => e.chat_id == 1)).length = 2
    ∧ find_one (set_default_repo (set_default_repo s0 1 "a/b" true).state 1 "c/d" true).state.default_repo_table 1
        = some { chat_id := 1, repo := "a/b" }
    ∧ (get_default_repo (set_default_repo (set_default_repo s0 1 "a/b" true).state 1 "c/d" true).state 1).effects
        = [Effect.sendMessage "Default repo for this chat: a/b"] :=
  ⟨rfl, rfl, rfl⟩

/-- Claim C2: with a non-empty trailing argument string the resolver passes
it to the handler at once and sends nothing; with no trailing argument it
sends exactly one prompt message, waits on the listener, and passes the next
message's text. -/
theorem resolver_inline_or_prompt (msg_text prompt next_text : String) :
    (get_args_string msg_text ≠ "" →
      get_args_as_str_or_ask prompt msg_text next_text = ([], get_args_string msg_text))
    ∧ (get_args_string msg_text = "" →
      get_args_as_str_or_ask prompt msg_text next_text
        = ([Effect.sendMessage prompt, Effect.listenerWait], next_text)) := by
  constructor
  · intro h
    simp [get_args_as_str_or_ask, h]
  · intro h
    simp [get_args_as_str_or_ask, h]

/-- Witness for claim C2 at concrete inputs: inline argument present and
absent. -/
theorem resolver_inline_or_prompt_witness :
    (get_args_string "/getrepo a/b" ≠ ""
      ∧ get_args_as_str_or_ask "Which repo would you like to get?" "/getrepo a/b" "reply"
          = ([], get_args_string "/getrepo a/b"))
    ∧ (get_args_string "/getrepo" = ""
      ∧ get_args_as_str_or_ask "Which repo would you like to get?" "/getrepo" "reply"
          = ([Effect.sendMessage "Which repo would you like to get?", Effect.listenerWait], "reply")) :=
  ⟨⟨by decide,
    (resolver_inline_or_prompt "/getrepo a/b" "Which repo would you like to get?" "reply").1 (by decide)⟩,
   ⟨by decide,
    (resolver_inline_or_prompt "/getrepo" "Which repo would you like to get?" "reply").2 (by decide)⟩⟩

/-- Claim C3: for a chat with no stored row, `get_default_repo` reports
"No repo set.", and after `set_default_repo "a/b"` it reports "a/b". -/
theorem default_repo_roundtrip (s : BeardState) (cid : Int)
    (h : find_one s.default_repo_table cid = none) :
    (get_default_repo s cid).effects = [Effect.sendMessage "No repo set."]
    ∧ (get_default_repo (set_default_repo s cid "a/b" true).state cid).effects
        = [Effect.sendMessage "Default repo for this chat: a/b"] := by
  constructor
  · simp [get_default_repo, h]
  · have h2 := find_one_append_self s.default_repo_table cid "a/b" h
    simp [set_default_repo, Table.insert, get_default_repo, h2]

/-- Witness for claim C3 at the initial state. -/
theorem default_repo_roundtrip_witness :
    find_one s0.default_repo_table 7 = none
    ∧ ((get_default_repo s0 7).effects = [Effect.sendMessage "No repo set."]
      ∧ (get_default_repo (set_default_repo s0 7 "a/b" true).state 7).effects
          = [Effect.sendMessage "Default repo for this chat: a/b"]) :=
  ⟨rfl, default_repo_roundtrip s0 7 rfl⟩

/-- Claim C4: with an empty pull-request listing, `get_pending_pulls` sends
exactly one message naming the repo and no per-PR messages; with a non-empty
listing it sends exactly one HTML message per pull request, in listing order,
and no "no pull requests found" message; no exception escapes. -/
theorem get_pending_pulls_messages (env : GithubEnv) (s : BeardState) (cid : Int)
    (msg_text a0 : String) (rest : List String)
    (h : get_args msg_text = a0 :: rest) :
    ((env.get_repo a0).get_pulls = [] →
      sends (get_pending_pulls env s cid msg_text).effects
        = [Effect.sendMessage ("No pull requests found for " ++ (env.get_repo a0).name ++ ".")])
    ∧ ((env.get_repo a0).get_pulls ≠ [] →
      sends (get_pending_pulls env s cid msg_text).effects
        = (env.get_repo a0).get_pulls.map
            (fun pr => Effect.sendMessageHTML (make_pull_msg_text_informal pr))
      ∧ Effect.sendMessage ("No pull requests found for " ++ (env.get_repo a0).name ++ ".")
          ∉ sends (get_pending_pulls env s cid msg_text).effects)
    ∧ (get_pending_pulls env s cid msg_text).err = none := by
  refine ⟨?_, ?_, ?_⟩
  · intro hp
    simp [get_pending_pulls, h, hp, sends]
  · intro hp
    cases hq : (env.get_repo a0).get_pulls with
    | nil => exact absurd hq hp
    | cons p ps =>
      have hs : sends (get_pending_pulls env s cid msg_text).effects
          = (p :: ps).map
              (fun pr => Effect.sendMessageHTML (make_pull_msg_text_informal pr)) := by
        have hmap := sends_map_html (p :: ps)
        simp only [sends] at hmap
        simp [get_pending_pulls, h, hq, sends, hmap]
      refine ⟨hs, ?_⟩
      rw [hs]
      intro hmem
      rcases List.mem_map.1 hmem with ⟨pr, _, hpr⟩
      exact Effect.noConfusion hpr
  · simp [get_pending_pulls, h]

/-- Witness for claim C4: a repo with zero pull requests and one with two. -/
theorem get_pending_pulls_messages_witness :
    (get_args "/getpr o/r" = ["o/r"]
      ∧ (env0.get_repo "o/r").get_pulls = []
      ∧ sends (get_pending_pulls env0 s0 1 "/getpr o/r").effects
          = [Effect.sendMessage ("No pull requests found for " ++ (env0.get_repo "o/r").name ++ ".")])
    ∧ ((env2.get_repo "o/r").get_pulls ≠ []
      ∧ sends (get_pending_pulls env2 s0 1 "/getpr o/r").effects
          = (env2.get_repo "o/r").get_pulls.map
              (fun pr => Effect.sendMessageHTML (make_pull_msg_text_informal pr))) :=
  ⟨⟨by decide, rfl,
    (get_pending_pulls_messages env0 s0 1 "/getpr o/r" "o/r" [] (by decide)).1 rfl⟩,
   ⟨by decide,
    ((get_pending_pulls_messages env2 s0 1 "/getpr o/r" "o/r" [] (by decide)).2.1 (by decide)).1⟩⟩

/-- Claim C5 counterexample: invoked with no inline argument and no stored
row, the handler body subscripts the missing (`None`) entry — `entry['repo']`
— and dies with the `NoneType`-subscript `TypeError`: it does crash on a null
dereference of the missing entry, contrary to the claim. -/
theorem get_pending_pulls_none_subscript :
    get_pending_pulls env0 s0 1 "/getpr"
      = { state := s0, effects := [], err := some PyError.noneSubscript } :=
  rfl

/-- Claim C5 (amended): the null-dereference exception is caught by the
`onerror "Failed to get repo info."` wrapper at the dispatch boundary and
converted into that single message, so nothing propagates past the wrapper. -/
theorem get_pending_pulls_missing_entry_onerror (env : GithubEnv) (s : BeardState)
    (cid : Int) (msg_text : String) (h1 : get_args msg_text = [])
    (h2 : find_one s.default_repo_table cid = none) :
    onerror "Failed to get repo info." (get_pending_pulls env s cid msg_text)
      = { state := s, effects := [Effect.sendMessage "Failed to get repo info."]
          err := none } := by
  simp [get_pending_pulls, h1, h2, onerror]

/-- Witness for the amended claim C5 at the initial state. -/
theorem get_pending_pulls_missing_entry_onerror_witness :
    (get_args "/getpr" = [] ∧ find_one s0.default_repo_table 1 = none)
    ∧ onerror "Failed to get repo info." (get_pending_pulls env0 s0 1 "/getpr")
        = { state := s0, effects := [Effect.sendMessage "Failed to get repo info."]
            err := none } :=
  ⟨⟨rfl, rfl⟩, get_pending_pulls_missing_entry_onerror env0 s0 1 "/getpr" rfl rfl⟩

/-- Claim C6: `search_repos` hands the paginator exactly the first 30 search
results: the paginated sequence is always `results.take 30`; when more than
30 results come back that is exactly 30 items, and when at most 30 come back
it is all of them in upstream order. -/
theorem search_repos_truncates (env : GithubEnv) (s : BeardState) (args : String) :
    paginatedItems (search_repos env s args).effects
      = some ((env.search_repositories args).take 30)
    ∧ (30 < (env.search_repositories args).length →
        ((env.search_repositories args).take 30).length = 30)
    ∧ ((env.search_repositories args).length ≤ 30 →
        (env.search_repositories args).take 30 = env.search_repositories args) := by
  refine ⟨rfl, ?_, ?_⟩
  · intro h
    simp [List.length_take]
    omega
  · intro h
    exact List.take_of_length_le h

/-- Witness for claim C6: a 45-result search and a 3-result search. -/
theorem search_repos_truncates_witness :
    (30 < (env2.search_repositories "q").length
      ∧ ((env2.search_repositories "q").take 30).length = 30)
    ∧ ((env0.search_repositories "q").length ≤ 30
      ∧ (env0.search_repositories "q").take 30 = env0.search_repositories "q") :=
  ⟨⟨by decide, (search_repos_truncates env2 s0 "q").2.1 (by decide)⟩,
   ⟨by decide, (search_repos_truncates env0 s0 "q").2.2 (by decide)⟩⟩

/-- Claim C7: when the requested username is unknown to the GitHub client,
`get_current_user_repos` sends exactly one "User not found." chat message —
no header, no typing action, no repo list — leaves the state unchanged, and
lets no exception escape. -/
theorem user_not_found_single_message (env : GithubEnv) (s : BeardState)
    (msg_text a0 : String) (rest : List String)
    (h : get_args msg_text = a0 :: rest) (h2 : env.get_user a0 = none) :
    sends (get_current_user_repos env s msg_text).effects
      = [Effect.sendMessage "User not found."]
    ∧ (get_current_user_repos env s msg_text).err = none
    ∧ (get_current_user_repos env s msg_text).state = s := by
  refine ⟨?_, ?_, ?_⟩ <;> simp [get_current_user_repos, h, h2, sends]

/-- Witness for claim C7 with a concrete unknown username. -/
theorem user_not_found_single_message_witness :
    (get_args "/currentusersrepos ghost" = ["ghost"] ∧ env0.get_user "ghost" = none)
    ∧ (sends (get_current_user_repos env0 s0 "/currentusersrepos ghost").effects
        = [Effect.sendMessage "User not found."]
      ∧ (get_current_user_repos env0 s0 "/currentusersrepos ghost").err = none
      ∧ (get_current_user_repos env0 s0 "/currentusersrepos ghost").state = s0) :=
  ⟨⟨by decide, rfl⟩,
   user_not_found_single_message env0 s0 "/currentusersrepos ghost" "ghost" [] (by decide) rfl⟩

/-- Claim C8: an unconfirmed insert (falsy returned entry) makes
`set_default_repo` raise the store-consistency exception and send nothing —
never silently ignored — while a confirmed insert sends exactly the
"Repo set to: ..." confirmation with no error. -/
theorem set_default_repo_write_confirmation (s : BeardState) (cid : Int) (args : String) :
    ((set_default_repo s cid args false).err
        = some (PyError.raised "Not sure how, but the entry failed to be got?")
      ∧ sends (set_default_repo s cid args false).effects = [])
    ∧ ((set_default_repo s cid args true).effects
        = [Effect.sendMessage ("Repo set to: " ++ args)]
      ∧ (set_default_repo s cid args true).err = none) := by
  refine ⟨⟨?_, ?_⟩, ?_, ?_⟩ <;> simp [set_default_repo, Table.insert, sends]

/-- Claim C9: with at least two whitespace-separated inline tokens,
`get_pending_pulls` fetches only the first token from the GitHub client,
while `get_repo` fetches, and `set_default_repo` stores, the whole trailing
argument string produced by the resolver. -/
theorem getpr_first_token_vs_full_string (env : GithubEnv) (s : BeardState)
    (cid : Int) (msg_text t1 t2 : String) (rest : List String)
    (h : get_args msg_text = t1 :: t2 :: rest) :
    repoCalls (get_pending_pulls env s cid msg_text).effects = [t1]
    ∧ get_args_string msg_text = String.intercalate " " (t1 :: t2 :: rest)
    ∧ repoCalls (get_repo env s (get_args_string msg_text)).effects
        = [String.intercalate " " (t1 :: t2 :: rest)]
    ∧ (set_default_repo s cid (get_args_string msg_text) true).state.default_repo_table
        = s.default_repo_table
            ++ [{ chat_id := cid, repo := String.intercalate " " (t1 :: t2 :: rest) }] := by
  have hstr : get_args_string msg_text = String.intercalate " " (t1 :: t2 :: rest) := by
    rw [get_args_string, h]
  refine ⟨?_, hstr, ?_, ?_⟩
  · cases hq : (env.get_repo t1).get_pulls with
    | nil => simp [get_pending_pulls, h, hq, repoCalls]
    | cons p ps =>
      have hmap := repoCalls_map_html (p :: ps)
      simp only [repoCalls] at hmap
      simp [get_pending_pulls, h, hq, repoCalls, hmap]
  · rw [hstr]
    simp [get_repo, repoCalls]
  · rw [hstr]
    simp [set_default_repo, Table.insert]

/-- Witness for claim C9 on the message "/getpr a/b extra". -/
theorem getpr_first_token_vs_full_string_witness :
    get_args "/getpr a/b extra" = ["a/b", "extra"]
    ∧ (repoCalls (get_pending_pulls env0 s0 1 "/getpr a/b extra").effects = ["a/b"]
      ∧ get_args_string "/getpr a/b extra" = String.intercalate " " ["a/b", "extra"]
      ∧ repoCalls (get_repo env0 s0 (get_args_string "/getpr a/b extra")).effects
          = [String.intercalate " " ["a/b", "extra"]]
      ∧ (set_default_repo s0 1 (get_args_string "/getpr a/b extra") true).state.default_repo_table
          = s0.default_repo_table
              ++ [{ chat_id := 1, repo := String.intercalate " " ["a/b", "extra"] }]) :=
  ⟨by decide,
   getpr_first_token_vs_full_string env0 s0 1 "/getpr a/b extra" "a/b" "extra" [] (by decide)⟩

/-- Claim C10: no command handler reads or writes the `search_repos_results`
table: every handler leaves it exactly as found, and replacing its contents
changes neither the effects, the error, nor the `default_repo` table any
handler produces. -/
theorem search_results_table_frame (env : GithubEnv) (s : BeardState) (x : Table)
    (cid : Int) (args msg_text : String) (confirm : Bool) :
    ((search_repos env s args).state.search_repos_results = s.search_repos_results
      ∧ visible (search_repos env { s with search_repos_results := x } args)
          = visible (search_repos env s args))
    ∧ ((get_default_repo s cid).state.search_repos_results = s.search_repos_results
      ∧ visible (get_default_repo { s with search_repos_results := x } cid)
          = visible (get_default_repo s cid))
    ∧ ((set_default_repo s cid args confirm).state.search_repos_results = s.search_repos_results
      ∧ visible (set_default_repo { s with search_repos_results := x } cid args confirm)
          = visible (set_default_repo s cid args confirm))
    ∧ ((get_repo env s args).state.search_repos_results = s.search_repos_results
      ∧ visible (get_repo env { s with search_repos_results := x } args)
          = visible (get_repo env s args))
    ∧ ((get_pending_pulls env s cid msg_text).state.search_repos_results = s.search_repos_results
      ∧ visible (get_pending_pulls env { s with search_repos_results := x } cid msg_text)
          = visible (get_pending_pulls env s cid msg_text))
    ∧ ((get_current_user_repos env s msg_text).state.search_repos_results = s.search_repos_results
      ∧ visible (get_current_user_repos env { s with search_repos_results := x } msg_text)
          = visible (get_current_user_repos env s msg_text)) := by
  refine ⟨⟨rfl, rfl⟩, ?_, ?_, ⟨rfl, rfl⟩, ?_, ?_⟩
  · cases hf : find_one s.default_repo_table cid <;>
      simp [get_default_repo, hf, visible]
  · cases confirm <;> simp [set_default_repo, Table.insert, visible]
  · cases ha : get_args msg_text with
    | nil =>
      cases hf : find_one s.default_repo_table cid <;>
        simp [get_pending_pulls, ha, hf, visible]
    | cons a0 rest =>
      simp [get_pending_pulls, ha, visible]
  · cases ha : get_args msg_text with
    | nil => simp [get_current_user_repos, ha, visible]
    | cons a0 rest =>
      cases hu : env.get_user a0 <;>
        simp [get_current_user_repos, ha, hu, visible]

end Githubbeard
